import Mathlib

/-!
Verification of the traffic-classification core of `metroline` (`main.go`).

The program classifies each aircraft of a network snapshot against a fixed
registry of major airports (each with satellite fields), producing per-major
departure and arrival counts plus a total count (`CountTraffic`), and filters
the controller list down to watched positions sorted by call sign
(`ActiveControllers`).

Embedding choices:
* Geographic points are pairs of rationals (every IEEE float value that the Go
  program can hold in a `float32` coordinate is a rational number).
* The classification logic compares distances computed by `NMDistance2LL`
  against constant thresholds.  The classification definitions are made
  parametric in the distance function `d : Point → Point → ℚ`; theorems
  quantified over every such `d` cover in particular the concrete float
  distances the program computes (every pattern of threshold-comparison
  outcomes the float code can produce, including the all-false pattern a NaN
  yields, is realised by some rational-valued `d`).
* The haversine distance itself (`NMDistance2LL`) is modelled over the reals
  for the algebraic claims about it.
* Go maps with implicit zero default (`dep[k] = dep[k] + 1`) are modelled as
  functions `String → ℕ` updated by `bump`.
* The out-of-range slice access `airports[0]` on an empty registry is a Go
  runtime panic; the per-aircraft step therefore returns `Option Counts`,
  `none` marking the panic.
-/

/-- A geographic point, stored as (longitude, latitude) like `[2]float32`. -/
abbrev Point : Type := ℚ × ℚ

/-- An abstract distance function standing for `NMDistance2LL` (whose float
results are rational values). -/
abbrev DistFn : Type := Point → Point → ℚ

/-- `type Airport struct { Name string; Location [2]float32 }`. -/
structure Airport where
  Name : String
  Location : Point
deriving DecidableEq, Repr

/-- `type MajorAirport struct { Airport; Satellites []Airport }`. -/
structure MajorAirport where
  airport : Airport
  Satellites : List Airport
deriving DecidableEq, Repr

/-- The flight-plan fields of a pilot that the classifier reads. -/
structure FlightPlan where
  Departure : String
  Arrival : String
deriving DecidableEq, Repr

/-- The fields of `type Pilot struct` that the classifier reads:
position, groundspeed (an `int` in Go) and the flight plan. -/
structure Pilot where
  Latitude : ℚ
  Longitude : ℚ
  Groundspeed : ℤ
  FlightPlan : FlightPlan
deriving DecidableEq, Repr

/-- The fields of `type Controller struct` that the controller filter reads. -/
structure Controller where
  CID : ℤ
  Name : String
  Callsign : String
deriving DecidableEq, Repr

/-- The field of `type Position struct` that the controller filter reads
(`Name` is the json `callsign`, e.g. `JFK_TWR`). -/
structure Position where
  Name : String
deriving DecidableEq, Repr

/-- The two snapshot lists the core consumes. -/
structure VATSIMState where
  Pilots : List Pilot
  Controllers : List Controller
deriving Repr

/-- `pilotLoc := [2]float32{pilot.Longitude, pilot.Latitude}`. -/
def pilotLoc (p : Pilot) : Point := (p.Longitude, p.Latitude)

/-- The inner closure `major` of `CountTraffic`: scan majors in registry
order; return the major's own `Airport` if its name matches, else if any of
its satellites' names matches; else keep scanning; `nil` if nothing matches. -/
def findMajor : List MajorAirport → String → Option Airport
  | [], _ => none
  | m :: rest, ap =>
    if m.airport.Name = ap then some m.airport
    else if m.Satellites.any fun sat => sat.Name == ap then some m.airport
    else findMajor rest ap

/-- The accumulated outputs of `CountTraffic`: the two Go maps (with their
implicit zero default) and the running total `count`. -/
structure Counts where
  dep : String → ℕ
  arr : String → ℕ
  count : ℕ

/-- `m[k] = m[k] + 1` on a Go map with implicit zero default. -/
def bump (f : String → ℕ) (k : String) : String → ℕ :=
  fun s => if s = k then f k + 1 else f s

/-- All-zero initial state: `make(map[string]int)` twice and `count := 0`. -/
def initCounts : Counts where
  dep := fun _ => 0
  arr := fun _ => 0
  count := 0

/-- The guard of the flight-plan departure branch:
`major := major(pilot.FlightPlan.Departure); major != nil && major.DistanceTo(pilotLoc) < 30`,
returning the matched major's name when the branch fires. -/
def depFlightPlan (d : DistFn) (airports : List MajorAirport) (loc : Point)
    (depCode : String) : Option String :=
  match findMajor airports depCode with
  | some M => if d M.Location loc < 30 then some M.Name else none
  | none => none

/-- The labelled nested loop of the fallback departure path: scan majors in
registry order; a major whose own location is within 3 nm wins (`break`),
otherwise the first of its satellites within 3 nm wins for that major
(`break loop`); in both cases the owning major's name is returned and
scanning stops; `none` when no candidate is within 3 nm. -/
def fallbackMajor (d : DistFn) (loc : Point) : List MajorAirport → Option String
  | [] => none
  | m :: rest =>
    if d m.airport.Location loc < 3 then some m.airport.Name
    else if m.Satellites.any fun sat => d sat.Location loc < 3 then
      some m.airport.Name
    else fallbackMajor d loc rest

/-- The departure stage of the per-pilot loop body: the flight-plan branch,
`else if pilot.Groundspeed < 20 && pilot.FlightPlan.Departure == ""` the
fallback branch. -/
def depStage (d : DistFn) (airports : List MajorAirport) (p : Pilot)
    (c : Counts) : Counts :=
  match depFlightPlan d airports (pilotLoc p) p.FlightPlan.Departure with
  | some name => { c with dep := bump c.dep name, count := c.count + 1 }
  | none =>
    if p.Groundspeed < 20 ∧ p.FlightPlan.Departure = "" then
      match fallbackMajor d (pilotLoc p) airports with
      | some name => { c with dep := bump c.dep name, count := c.count + 1 }
      | none => c
    else c

/-- The arrival stage of the per-pilot loop body:
`major(pilot.FlightPlan.Arrival) != nil && major.DistanceTo(pilotLoc) < 300 && pilot.Groundspeed > 20`. -/
def arrStage (d : DistFn) (airports : List MajorAirport) (p : Pilot)
    (c : Counts) : Counts :=
  match findMajor airports p.FlightPlan.Arrival with
  | some M =>
    if d M.Location (pilotLoc p) < 300 ∧ 20 < p.Groundspeed then
      { c with arr := bump c.arr M.Name, count := c.count + 1 }
    else c
  | none => c

/-- One iteration of the pilot loop of `CountTraffic`.  `airports[0]` panics
on an empty registry (`none`); otherwise the 500 nm cutoff `continue`s, and
the departure and arrival stages run in order. -/
def processPilot (d : DistFn) (airports : List MajorAirport) (c : Counts)
    (p : Pilot) : Option Counts :=
  match airports.head? with
  | none => none
  | some first =>
    if d first.airport.Location (pilotLoc p) > 500 then some c
    else some (arrStage d airports p (depStage d airports p c))

/-- The pilot loop of `CountTraffic`, threading the counts. -/
def countLoop (d : DistFn) (airports : List MajorAirport) :
    Counts → List Pilot → Option Counts
  | c, [] => some c
  | c, p :: rest =>
    match processPilot d airports c p with
    | none => none
    | some c' => countLoop d airports c' rest

/-- `func CountTraffic(state *VATSIMState, airports []MajorAirport)`. -/
def CountTraffic (d : DistFn) (state : VATSIMState)
    (airports : List MajorAirport) : Option Counts :=
  countLoop d airports initCounts state.Pilots

/-- The comparator `strings.Compare(a.Callsign, b.Callsign)` as a Bool
less-or-equal test (Go compares raw bytes; on UTF-8 encoded strings byte
order agrees with code-point order, which is Lean's `String` order). -/
def controllerLE (a b : Controller) : Bool := a.Callsign ≤ b.Callsign

/-- `func ActiveControllers(state *VATSIMState, positions []Position)`:
keep controllers whose call sign equals some position's name, then sort by
call sign (`slices.SortFunc` modelled by a sort with the same comparator). -/
def ActiveControllers (state : VATSIMState) (positions : List Position) :
    List Controller :=
  (state.Controllers.filter fun ctrl =>
    positions.any fun p => p.Name == ctrl.Callsign).mergeSort controllerLE

/-- A major airport has a fallback-departure candidate within 3 nm: its own
location, or one of its satellites. -/
def hitsNear (d : DistFn) (loc : Point) (m : MajorAirport) : Prop :=
  d m.airport.Location loc < 3 ∨ ∃ sat ∈ m.Satellites, d sat.Location loc < 3

instance (d : DistFn) (loc : Point) (m : MajorAirport) :
    Decidable (hitsNear d loc m) := by
  unfold hitsNear
  infer_instance

/-- `math.Atan2(y, x)` for the argument ranges the program reaches (both
arguments of the haversine call are square roots, hence non-negative),
modelled over the reals with the standard quadrant definition. -/
noncomputable def atan2 (y x : ℝ) : ℝ :=
  if 0 < x then Real.arctan (y / x)
  else if x < 0 then
    (if 0 ≤ y then Real.arctan (y / x) + Real.pi
     else Real.arctan (y / x) - Real.pi)
  else if 0 < y then Real.pi / 2
  else if y < 0 then -(Real.pi / 2)
  else 0

/-- `func NMDistance2LL(a [2]float32, b [2]float32) float32`: the haversine
great-circle distance in nautical miles, Earth radius 6371000 m, conversion
factor 0.000539957; the double-precision intermediate computation is
modelled over the reals. -/
noncomputable def NMDistance2LL (a b : ℝ × ℝ) : ℝ :=
  let R : ℝ := 6371000
  let rad := fun dg : ℝ => dg / 180 * Real.pi
  let lat1 := rad a.2
  let lon1 := rad a.1
  let lat2 := rad b.2
  let lon2 := rad b.1
  let dlat := lat2 - lat1
  let dlon := lon2 - lon1
  let sqr := fun t : ℝ => t * t
  let x := sqr (Real.sin (dlat / 2)) +
    Real.cos lat1 * Real.cos lat2 * sqr (Real.sin (dlon / 2))
  let c := 2 * atan2 (Real.sqrt x) (Real.sqrt (1 - x))
  let dm := R * c
  dm * 0.000539957

-- Concrete fixtures used by witnesses and counterexamples.

/-- A distance function that reports every pair as coincident. -/
def dZero : DistFn := fun _ _ => 0

/-- A distance function that reports every pair as 600 nm apart. -/
def dFar : DistFn := fun _ _ => 600

/-- A distance function under which the registry's satellite at (10, 10) is
2 nm from everything and every other field is 400 nm away. -/
def dSat : DistFn := fun a _ => if a = ((10 : ℚ), (10 : ℚ)) then 2 else 400

/-- Concrete major airport. -/
def apKAAA : Airport := { Name := "KAAA", Location := (0, 0) }

/-- Concrete satellite airport. -/
def apKBBB : Airport := { Name := "KBBB", Location := (10, 10) }

/-- Concrete major entry: KAAA owning satellite KBBB. -/
def mKAAA : MajorAirport := { airport := apKAAA, Satellites := [apKBBB] }

/-- Concrete one-major registry. -/
def regOne : List MajorAirport := [mKAAA]

/-- A moving aircraft that filed KAAA as both departure and arrival. -/
def pBoth : Pilot :=
  { Latitude := 0, Longitude := 0, Groundspeed := 100,
    FlightPlan := { Departure := "KAAA", Arrival := "KAAA" } }

/-- A stationary aircraft with no flight plan. -/
def pNoPlan : Pilot :=
  { Latitude := 0, Longitude := 0, Groundspeed := 0,
    FlightPlan := { Departure := "", Arrival := "" } }

/-- A fast aircraft with no flight plan. -/
def pFastNoPlan : Pilot :=
  { Latitude := 0, Longitude := 0, Groundspeed := 250,
    FlightPlan := { Departure := "", Arrival := "" } }

-- Sanity check on a concrete input (spec §8 end-to-end scenario, with a
-- distance function matching the scenario's stated distances: aircraft #1 at
-- the major, aircraft #2 thirty nautical miles out).
example :
    (CountTraffic
      (fun a b => if a = ((0 : ℚ), (0 : ℚ)) ∧ b = ((0 : ℚ), (5 : ℚ)) then 30 else 0)
      { Pilots :=
          [ { Latitude := 0, Longitude := 0, Groundspeed := 0,
              FlightPlan := { Departure := "KAAA", Arrival := "" } },
            { Latitude := 5, Longitude := 0, Groundspeed := 150,
              FlightPlan := { Departure := "", Arrival := "KAAA" } } ],
        Controllers := [] }
      [ { airport := { Name := "KAAA", Location := (0, 0) },
          Satellites := [{ Name := "KBBB", Location := (0, 1) }] } ]).map
      (fun c => (c.dep "KAAA", c.arr "KAAA", c.count)) = some (1, 1, 2) := by
  rfl

-- Helper lemmas about the two stages.

/-- The arrival stage never touches the departure map. -/
theorem arrStage_dep (d : DistFn) (airports : List MajorAirport) (p : Pilot)
    (c : Counts) : (arrStage d airports p c).dep = c.dep := by
  unfold arrStage
  cases hM : findMajor airports p.FlightPlan.Arrival with
  | none => rfl
  | some M => dsimp only; split <;> rfl

/-- The departure stage never touches the arrival map. -/
theorem depStage_arr (d : DistFn) (airports : List MajorAirport) (p : Pilot)
    (c : Counts) : (depStage d airports p c).arr = c.arr := by
  unfold depStage
  cases hP : depFlightPlan d airports (pilotLoc p) p.FlightPlan.Departure with
  | some name => rfl
  | none =>
    dsimp only
    split
    · cases hF : fallbackMajor d (pilotLoc p) airports with
      | none => rfl
      | some name => rfl
    · rfl

/-- The departure stage applies at most one increment, to a single major. -/
theorem depStage_dep_cases (d : DistFn) (airports : List MajorAirport)
    (p : Pilot) (c : Counts) :
    (depStage d airports p c).dep = c.dep ∨
      ∃ k, (depStage d airports p c).dep = bump c.dep k := by
  unfold depStage
  cases hP : depFlightPlan d airports (pilotLoc p) p.FlightPlan.Departure with
  | some name => exact Or.inr ⟨name, rfl⟩
  | none =>
    dsimp only
    split
    · cases hF : fallbackMajor d (pilotLoc p) airports with
      | none => exact Or.inl rfl
      | some name => exact Or.inr ⟨name, rfl⟩
    · exact Or.inl rfl

/-- The arrival stage applies at most one increment, to a single major. -/
theorem arrStage_arr_cases (d : DistFn) (airports : List MajorAirport)
    (p : Pilot) (c : Counts) :
    (arrStage d airports p c).arr = c.arr ∨
      ∃ k, (arrStage d airports p c).arr = bump c.arr k := by
  unfold arrStage
  cases hM : findMajor airports p.FlightPlan.Arrival with
  | none => exact Or.inl rfl
  | some M =>
    dsimp only
    split
    · exact Or.inr ⟨M.Name, rfl⟩
    · exact Or.inl rfl

/-- C4: an aircraft farther than 500 nm from the first registry major is
skipped entirely: the per-aircraft step leaves every count unchanged,
whatever its flight plan, groundspeed, or position relative to the other
airports (the registry being non-empty). -/
theorem c4_global_cutoff (d : DistFn) (airports : List MajorAirport)
    (first : MajorAirport) (c : Counts) (p : Pilot)
    (hhead : airports.head? = some first)
    (hfar : d first.airport.Location (pilotLoc p) > 500) :
    processPilot d airports c p = some c := by
  unfold processPilot
  rw [hhead]
  simp [hfar]

/-- Witness for C4 at a concrete input. -/
theorem c4_global_cutoff_witness :
    regOne.head? = some mKAAA ∧
    dFar mKAAA.airport.Location (pilotLoc pBoth) > 500 ∧
    processPilot dFar regOne initCounts pBoth = some initCounts :=
  ⟨rfl, by decide, c4_global_cutoff dFar regOne mKAAA initCounts pBoth rfl (by decide)⟩

/-- C2: within the 500 nm cutoff, an aircraft whose filed departure code
resolves through the registry to owning major M, with the aircraft under
30 nm from M's own location, gets exactly one departure increment for M and
one total-count increment via the flight-plan path; the fallback path is not
additionally applied (the departure map receives the single bump for M). -/
theorem c2_flightplan_departure (d : DistFn) (airports : List MajorAirport)
    (first : MajorAirport) (M : Airport) (c : Counts) (p : Pilot)
    (hhead : airports.head? = some first)
    (hnear : ¬ d first.airport.Location (pilotLoc p) > 500)
    (hM : findMajor airports p.FlightPlan.Departure = some M)
    (h30 : d M.Location (pilotLoc p) < 30) :
    ∃ c', processPilot d airports c p = some c' ∧
      depStage d airports p c =
        { c with dep := bump c.dep M.Name, count := c.count + 1 } ∧
      c'.dep = bump c.dep M.Name := by
  have hplan : depFlightPlan d airports (pilotLoc p) p.FlightPlan.Departure
      = some M.Name := by
    unfold depFlightPlan
    rw [hM]
    simp [h30]
  have hstage : depStage d airports p c =
      { c with dep := bump c.dep M.Name, count := c.count + 1 } := by
    unfold depStage
    rw [hplan]
  refine ⟨arrStage d airports p (depStage d airports p c), ?_, hstage, ?_⟩
  · unfold processPilot
    rw [hhead]
    simp [hnear]
  · rw [arrStage_dep, hstage]

/-- Witness for C2 at a concrete input. -/
theorem c2_flightplan_departure_witness :
    regOne.head? = some mKAAA ∧
    ¬ dZero mKAAA.airport.Location (pilotLoc pBoth) > 500 ∧
    findMajor regOne pBoth.FlightPlan.Departure = some apKAAA ∧
    dZero apKAAA.Location (pilotLoc pBoth) < 30 ∧
    (∃ c', processPilot dZero regOne initCounts pBoth = some c' ∧
      depStage dZero regOne pBoth initCounts =
        { initCounts with dep := bump initCounts.dep apKAAA.Name,
                          count := initCounts.count + 1 } ∧
      c'.dep = bump initCounts.dep apKAAA.Name) :=
  ⟨rfl, by decide, by rfl, by decide,
    c2_flightplan_departure dZero regOne mKAAA apKAAA initCounts pBoth
      rfl (by decide) (by rfl) (by decide)⟩

/-- C3: within the 500 nm cutoff, an aircraft whose filed arrival code
resolves to owning major M with the aircraft under 300 nm from M's own
location is tallied as an arrival of M (one arrival increment, one
total-count increment) exactly when its groundspeed exceeds 20 knots; at
20 knots or less no arrival is counted for it. -/
theorem c3_arrival (d : DistFn) (airports : List MajorAirport)
    (first : MajorAirport) (M : Airport) (c : Counts) (p : Pilot)
    (hhead : airports.head? = some first)
    (hnear : ¬ d first.airport.Location (pilotLoc p) > 500)
    (hM : findMajor airports p.FlightPlan.Arrival = some M)
    (h300 : d M.Location (pilotLoc p) < 300) :
    ∃ c', processPilot d airports c p = some c' ∧
      (20 < p.Groundspeed →
        c'.arr = bump c.arr M.Name ∧
        c'.count = (depStage d airports p c).count + 1) ∧
      (p.Groundspeed ≤ 20 → c'.arr = c.arr) := by
  refine ⟨arrStage d airports p (depStage d airports p c), ?_, ?_, ?_⟩
  · unfold processPilot
    rw [hhead]
    simp [hnear]
  · intro hgs
    have : arrStage d airports p (depStage d airports p c) =
        { depStage d airports p c with
            arr := bump (depStage d airports p c).arr M.Name,
            count := (depStage d airports p c).count + 1 } := by
      unfold arrStage
      rw [hM]
      simp [h300, hgs]
    rw [this]
    exact ⟨by simp [depStage_arr], rfl⟩
  · intro hgs
    have hgs' : ¬ 20 < p.Groundspeed := not_lt.mpr hgs
    have : arrStage d airports p (depStage d airports p c) =
        depStage d airports p c := by
      unfold arrStage
      rw [hM]
      simp [hgs']
    rw [this, depStage_arr]

/-- Witness for C3 at a concrete input (both groundspeed cases are exercised
through the moving aircraft; the slow branch holds vacuously for it). -/
theorem c3_arrival_witness :
    regOne.head? = some mKAAA ∧
    ¬ dZero mKAAA.airport.Location (pilotLoc pBoth) > 500 ∧
    findMajor regOne pBoth.FlightPlan.Arrival = some apKAAA ∧
    dZero apKAAA.Location (pilotLoc pBoth) < 300 ∧
    (∃ c', processPilot dZero regOne initCounts pBoth = some c' ∧
      (20 < pBoth.Groundspeed →
        c'.arr = bump initCounts.arr apKAAA.Name ∧
        c'.count = (depStage dZero regOne pBoth initCounts).count + 1) ∧
      (pBoth.Groundspeed ≤ 20 → c'.arr = initCounts.arr)) :=
  ⟨rfl, by decide, by rfl, by decide,
    c3_arrival dZero regOne mKAAA apKAAA initCounts pBoth
      rfl (by decide) (by rfl) (by decide)⟩

/-- In a registry whose major and satellite codes are all non-empty, the
lookup of the empty code fails. -/
theorem findMajor_empty_code (airports : List MajorAirport)
    (hnames : ∀ m ∈ airports,
      m.airport.Name ≠ "" ∧ ∀ sat ∈ m.Satellites, sat.Name ≠ "") :
    findMajor airports "" = none := by
  induction airports with
  | nil => rfl
  | cons m rest ih =>
    obtain ⟨hm, hsat⟩ := hnames m (List.mem_cons_self m rest)
    unfold findMajor
    rw [if_neg (fun h => hm h)]
    have hany : (m.Satellites.any fun sat => sat.Name == "") = false := by
      rw [List.any_eq_false]
      intro sat hs
      simpa using hsat sat hs
    rw [hany]
    simp only [Bool.false_eq_true, if_false]
    exact ih fun m' hm' => hnames m' (List.mem_cons_of_mem m hm')

/-- C10: in a registry where every major and satellite code is non-empty, an
aircraft that filed neither a departure nor an arrival code and is moving at
20 knots or more contributes nothing: the per-aircraft step returns the
counts unchanged, regardless of the aircraft's position. -/
theorem c10_no_plan_moving_no_contribution (d : DistFn)
    (airports : List MajorAirport) (c : Counts) (p : Pilot)
    (hne : airports ≠ [])
    (hnames : ∀ m ∈ airports,
      m.airport.Name ≠ "" ∧ ∀ sat ∈ m.Satellites, sat.Name ≠ "")
    (hdep : p.FlightPlan.Departure = "")
    (harr : p.FlightPlan.Arrival = "")
    (hgs : 20 ≤ p.Groundspeed) :
    processPilot d airports c p = some c := by
  have hfind : findMajor airports "" = none := findMajor_empty_code airports hnames
  have hstageD : depStage d airports p c = c := by
    unfold depStage depFlightPlan
    rw [hdep, hfind]
    have h20 : ¬ p.Groundspeed < 20 := not_lt.mpr hgs
    simp [h20]
  have hstageA : arrStage d airports p c = c := by
    unfold arrStage
    rw [harr, hfind]
  obtain ⟨first, rest, rfl⟩ := List.exists_cons_of_ne_nil hne
  unfold processPilot
  by_cases hfar : d first.airport.Location (pilotLoc p) > 500
  · simp [hfar]
  · simp [hfar, hstageD, hstageA]

/-- Witness for C10 at a concrete input. -/
theorem c10_no_plan_moving_no_contribution_witness :
    regOne ≠ [] ∧
    pFastNoPlan.FlightPlan.Departure = "" ∧
    pFastNoPlan.FlightPlan.Arrival = "" ∧
    20 ≤ pFastNoPlan.Groundspeed ∧
    processPilot dZero regOne initCounts pFastNoPlan = some initCounts :=
  ⟨by decide, rfl, rfl, by decide,
    c10_no_plan_moving_no_contribution dZero regOne initCounts pFastNoPlan
      (by decide) (by decide) rfl rfl (by decide)⟩

/-- C7: each aircraft contributes at most one increment to the departure
counts (a single bump of a single major's entry) and at most one increment to
the arrival counts, per classification step; in particular it is never
tallied for two different majors in the same direction. -/
theorem c7_at_most_one_per_direction (d : DistFn)
    (airports : List MajorAirport) (c : Counts) (p : Pilot) (c' : Counts)
    (h : processPilot d airports c p = some c') :
    (c'.dep = c.dep ∨ ∃ k, c'.dep = bump c.dep k) ∧
    (c'.arr = c.arr ∨ ∃ k, c'.arr = bump c.arr k) := by
  cases airports with
  | nil => simp [processPilot] at h
  | cons a t =>
    have h' : (if d a.airport.Location (pilotLoc p) > 500 then some c
        else some (arrStage d (a :: t) p (depStage d (a :: t) p c)))
        = some c' := h
    by_cases hfar : d a.airport.Location (pilotLoc p) > 500
    · rw [if_pos hfar] at h'
      obtain rfl : c = c' := by injection h'
      exact ⟨Or.inl rfl, Or.inl rfl⟩
    · rw [if_neg hfar] at h'
      obtain rfl : arrStage d (a :: t) p (depStage d (a :: t) p c) = c' := by
        injection h'
      constructor
      · rw [arrStage_dep]
        exact depStage_dep_cases d (a :: t) p c
      · rcases arrStage_arr_cases d (a :: t) p (depStage d (a :: t) p c) with
          hc | ⟨k, hk⟩
        · rw [hc, depStage_arr]; exact Or.inl rfl
        · rw [hk, depStage_arr]; exact Or.inr ⟨k, rfl⟩

/-- Witness for C7 at a concrete input. -/
theorem c7_at_most_one_per_direction_witness :
    processPilot dZero regOne initCounts pBoth =
      some (arrStage dZero regOne pBoth (depStage dZero regOne pBoth initCounts)) ∧
    ((arrStage dZero regOne pBoth (depStage dZero regOne pBoth initCounts)).dep
        = initCounts.dep ∨
      ∃ k, (arrStage dZero regOne pBoth (depStage dZero regOne pBoth initCounts)).dep
        = bump initCounts.dep k) ∧
    ((arrStage dZero regOne pBoth (depStage dZero regOne pBoth initCounts)).arr
        = initCounts.arr ∨
      ∃ k, (arrStage dZero regOne pBoth (depStage dZero regOne pBoth initCounts)).arr
        = bump initCounts.arr k) :=
  ⟨rfl, c7_at_most_one_per_direction dZero regOne initCounts pBoth _ rfl⟩

/-- Counterexample to C5 as stated: a moving aircraft that filed KAAA as both
departure and arrival, sitting at the field, is tallied as a departure of
KAAA and as an arrival of KAAA in the same pass. -/
theorem c5_counterexample :
    (processPilot dZero regOne initCounts pBoth).map
      (fun c => (c.dep "KAAA", c.arr "KAAA")) = some (1, 1) := by
  rfl

/-- C5 amended: the departure/arrival exclusivity holds for the fallback
departure path.  The fallback path requires groundspeed under 20 knots, and
at 20 knots or less the arrival rule never fires, so an aircraft counted as a
fallback departure of a major is never also tallied as an arrival of that (or
any) major in the same pass.  (Via the flight-plan departure path the double
tally is possible, as the counterexample shows.) -/
theorem c5_amended_fallback_exclusive (d : DistFn)
    (airports : List MajorAirport) (c : Counts) (p : Pilot) (c' : Counts)
    (hgs : p.Groundspeed < 20)
    (h : processPilot d airports c p = some c') :
    c'.arr = c.arr := by
  cases airports with
  | nil => simp [processPilot] at h
  | cons a t =>
    have h' : (if d a.airport.Location (pilotLoc p) > 500 then some c
        else some (arrStage d (a :: t) p (depStage d (a :: t) p c)))
        = some c' := h
    by_cases hfar : d a.airport.Location (pilotLoc p) > 500
    · rw [if_pos hfar] at h'
      obtain rfl : c = c' := by injection h'
      rfl
    · rw [if_neg hfar] at h'
      obtain rfl : arrStage d (a :: t) p (depStage d (a :: t) p c) = c' := by
        injection h'
      have hgs' : ¬ 20 < p.Groundspeed := by omega
      have harr : arrStage d (a :: t) p (depStage d (a :: t) p c) =
          depStage d (a :: t) p c := by
        unfold arrStage
        cases hA : findMajor (a :: t) p.FlightPlan.Arrival with
        | none => rfl
        | some M => simp [hgs']
      rw [harr, depStage_arr]

/-- Witness for the amended C5 at a concrete input. -/
theorem c5_amended_fallback_exclusive_witness :
    pNoPlan.Groundspeed < 20 ∧
    (arrStage dZero regOne pNoPlan (depStage dZero regOne pNoPlan initCounts)).arr
      = initCounts.arr :=
  ⟨by decide,
    c5_amended_fallback_exclusive dZero regOne initCounts pNoPlan _
      (by decide) rfl⟩

/-- Counterexample to C6 as stated: with an empty registry and a non-empty
pilot list, `CountTraffic` evaluates `airports[0]` out of range and fails
(the Go program panics), so the operation is not total over all well-typed
inputs. -/
theorem c6_counterexample :
    CountTraffic dZero { Pilots := [pNoPlan], Controllers := [] } [] = none := by
  rfl

/-- The per-pilot step always succeeds on a non-empty registry. -/
theorem processPilot_isSome (d : DistFn) (airports : List MajorAirport)
    (c : Counts) (p : Pilot) (hne : airports ≠ []) :
    ∃ c', processPilot d airports c p = some c' := by
  obtain ⟨a, t, rfl⟩ := List.exists_cons_of_ne_nil hne
  by_cases hfar : d a.airport.Location (pilotLoc p) > 500
  · exact ⟨c, by simp [processPilot, hfar]⟩
  · exact ⟨arrStage d (a :: t) p (depStage d (a :: t) p c),
      by simp [processPilot, hfar]⟩

/-- The pilot loop always succeeds on a non-empty registry. -/
theorem countLoop_isSome (d : DistFn) (airports : List MajorAirport)
    (hne : airports ≠ []) (pilots : List Pilot) (c : Counts) :
    ∃ c', countLoop d airports c pilots = some c' := by
  induction pilots generalizing c with
  | nil => exact ⟨c, rfl⟩
  | cons p rest ih =>
    obtain ⟨c1, hc1⟩ := processPilot_isSome d airports c p hne
    obtain ⟨c2, hc2⟩ := ih c1
    exact ⟨c2, by unfold countLoop; rw [hc1]; exact hc2⟩

/-- C6 amended: the core operations are total on every well-typed input whose
registry is non-empty (as the program always supplies): `CountTraffic`
returns a result for every pilot list, groundspeed, coordinate set and
distance function, and `ActiveControllers` — a total function in this
embedding — returns its list for every session and position list.  (On an
empty registry together with a non-empty pilot list, `CountTraffic` fails, as
the counterexample shows.) -/
theorem c6_amended_total (d : DistFn) (state : VATSIMState)
    (airports : List MajorAirport) (positions : List Position)
    (hne : airports ≠ []) :
    (∃ c, CountTraffic d state airports = some c) ∧
    ∃ l, ActiveControllers state positions = l :=
  ⟨countLoop_isSome d airports hne state.Pilots initCounts,
    ActiveControllers state positions, rfl⟩

/-- Witness for the amended C6 at a concrete input. -/
theorem c6_amended_total_witness :
    regOne ≠ [] ∧
    ((∃ c, CountTraffic dZero
        { Pilots := [pNoPlan, pBoth], Controllers := [] } regOne = some c) ∧
      ∃ l, ActiveControllers
        { Pilots := [pNoPlan, pBoth], Controllers := [] } [] = l) :=
  ⟨by decide,
    c6_amended_total dZero { Pilots := [pNoPlan, pBoth], Controllers := [] }
      regOne [] (by decide)⟩

/-- A major with no fallback candidate within 3 nm passes both tests of the
fallback loop body. -/
theorem fallbackMajor_cons_of_not_hits (d : DistFn) (loc : Point)
    (m : MajorAirport) (rest : List MajorAirport)
    (hm : ¬ hitsNear d loc m) :
    fallbackMajor d loc (m :: rest) = fallbackMajor d loc rest := by
  have hown : ¬ d m.airport.Location loc < 3 := fun h => hm (Or.inl h)
  have hany : (m.Satellites.any fun sat => d sat.Location loc < 3) = false := by
    rw [List.any_eq_false]
    intro sat hs
    simpa using fun hd => hm (Or.inr ⟨sat, hs, hd⟩)
  simp only [fallbackMajor]
  rw [if_neg hown, hany]
  simp only [Bool.false_eq_true, if_false]

/-- The fallback scan returns the first major in registry order that has a
candidate (own location or a satellite) within 3 nm. -/
theorem fallbackMajor_first_hit (d : DistFn) (loc : Point)
    (pre : List MajorAirport) (m : MajorAirport) (rest : List MajorAirport)
    (hpre : ∀ m' ∈ pre, ¬ hitsNear d loc m')
    (hm : hitsNear d loc m) :
    fallbackMajor d loc (pre ++ m :: rest) = some m.airport.Name := by
  induction pre with
  | nil =>
    rw [List.nil_append]
    simp only [fallbackMajor]
    by_cases hown : d m.airport.Location loc < 3
    · rw [if_pos hown]
    · have hm' : d m.airport.Location loc < 3 ∨
          ∃ sat ∈ m.Satellites, d sat.Location loc < 3 := hm
      rcases hm' with hown' | ⟨sat, hs, hd⟩
      · exact absurd hown' hown
      · have hany : (m.Satellites.any fun sat => d sat.Location loc < 3)
            = true := by
          rw [List.any_eq_true]
          exact ⟨sat, hs, by simpa using hd⟩
        rw [if_neg hown, hany, if_pos rfl]
  | cons m' pre' ih =>
    rw [List.cons_append,
      fallbackMajor_cons_of_not_hits d loc m' (pre' ++ m :: rest)
        (hpre m' (List.mem_cons_self m' pre'))]
    exact ih fun x hx => hpre x (List.mem_cons_of_mem m' hx)

/-- The fallback scan finds nothing when no major has a candidate within
3 nm. -/
theorem fallbackMajor_none (d : DistFn) (loc : Point)
    (airports : List MajorAirport)
    (h : ∀ m ∈ airports, ¬ hitsNear d loc m) :
    fallbackMajor d loc airports = none := by
  induction airports with
  | nil => rfl
  | cons m rest ih =>
    rw [fallbackMajor_cons_of_not_hits d loc m rest
      (h m (List.mem_cons_self m rest))]
    exact ih fun x hx => h x (List.mem_cons_of_mem m hx)

/-- C1: within the 500 nm cutoff, for an aircraft with an empty filed
departure code, groundspeed under 20 knots, and a non-firing flight-plan
departure path, the fallback path scans majors in registry order: the first
major with a candidate within 3 nm — its own location, or otherwise one of
its satellites — receives the departure increment (attributed to the owning
major, not the satellite) together with a total-count increment, and
scanning stops there; when no candidate is within 3 nm, no departure is
added for the aircraft. -/
theorem c1_fallback_departure (d : DistFn) (airports : List MajorAirport)
    (first : MajorAirport) (c : Counts) (p : Pilot)
    (hhead : airports.head? = some first)
    (hnear : ¬ d first.airport.Location (pilotLoc p) > 500)
    (hdep : p.FlightPlan.Departure = "")
    (hgs : p.Groundspeed < 20)
    (hplan : depFlightPlan d airports (pilotLoc p) p.FlightPlan.Departure
      = none) :
    (∀ pre m rest, airports = pre ++ m :: rest →
      (∀ m' ∈ pre, ¬ hitsNear d (pilotLoc p) m') →
      hitsNear d (pilotLoc p) m →
      processPilot d airports c p =
        some (arrStage d airports p
          { c with dep := bump c.dep m.airport.Name,
                   count := c.count + 1 })) ∧
    ((∀ m' ∈ airports, ¬ hitsNear d (pilotLoc p) m') →
      processPilot d airports c p = some (arrStage d airports p c)) := by
  have hproc : processPilot d airports c p =
      some (arrStage d airports p (depStage d airports p c)) := by
    unfold processPilot
    rw [hhead]
    simp [hnear]
  have hguard : (p.Groundspeed < 20 ∧ p.FlightPlan.Departure = "") :=
    ⟨hgs, hdep⟩
  constructor
  · intro pre m rest hsplit hpre hm
    have hstage : depStage d airports p c =
        { c with dep := bump c.dep m.airport.Name, count := c.count + 1 } := by
      unfold depStage
      rw [hplan, if_pos hguard, hsplit,
        fallbackMajor_first_hit d (pilotLoc p) pre m rest hpre hm]
    rw [hproc, hstage]
  · intro hnone
    have hstage : depStage d airports p c = c := by
      unfold depStage
      rw [hplan, if_pos hguard,
        fallbackMajor_none d (pilotLoc p) airports hnone]
    rw [hproc, hstage]

/-- Witness for C1 at a concrete input: under `dSat` the registry's sole
major KAAA is 400 nm away itself but its satellite KBBB is 2 nm away, so the
stationary unplanned aircraft is attributed to KAAA. -/
theorem c1_fallback_departure_witness :
    regOne.head? = some mKAAA ∧
    ¬ dSat mKAAA.airport.Location (pilotLoc pNoPlan) > 500 ∧
    pNoPlan.FlightPlan.Departure = "" ∧
    pNoPlan.Groundspeed < 20 ∧
    depFlightPlan dSat regOne (pilotLoc pNoPlan) pNoPlan.FlightPlan.Departure
      = none ∧
    regOne = [] ++ mKAAA :: [] ∧
    hitsNear dSat (pilotLoc pNoPlan) mKAAA ∧
    processPilot dSat regOne initCounts pNoPlan =
      some (arrStage dSat regOne pNoPlan
        { initCounts with dep := bump initCounts.dep mKAAA.airport.Name,
                          count := initCounts.count + 1 }) :=
  ⟨rfl, by decide, rfl, by decide, by rfl, rfl, by decide,
    (c1_fallback_departure dSat regOne mKAAA initCounts pNoPlan
        rfl (by decide) rfl (by decide) (by rfl)).1
      [] mKAAA [] rfl (by simp) (by decide)⟩

/-- C8: `ActiveControllers` returns exactly those sessions whose call sign
exactly equals some watched position's name (a permutation of the filtered
session list — no case folding, no prefix or wildcard match), sorted
ascending by call sign under ordinal string comparison; when no session
matches, the result is the empty list. -/
theorem c8_active_controllers (state : VATSIMState)
    (positions : List Position) :
    (ActiveControllers state positions).Perm
      (state.Controllers.filter fun ctrl =>
        positions.any fun pos => pos.Name == ctrl.Callsign) ∧
    (ActiveControllers state positions).Pairwise
      (fun a b => a.Callsign ≤ b.Callsign) ∧
    ((state.Controllers.filter fun ctrl =>
        positions.any fun pos => pos.Name == ctrl.Callsign) = [] →
      ActiveControllers state positions = []) := by
  have hperm : (ActiveControllers state positions).Perm
      (state.Controllers.filter fun ctrl =>
        positions.any fun pos => pos.Name == ctrl.Callsign) :=
    List.mergeSort_perm _ controllerLE
  refine ⟨hperm, ?_, ?_⟩
  · have htrans : ∀ a b c : Controller, controllerLE a b = true →
        controllerLE b c = true → controllerLE a c = true := by
      intro a b c hab hbc
      simp only [controllerLE, decide_eq_true_eq] at *
      exact le_trans hab hbc
    have htotal : ∀ a b : Controller,
        (controllerLE a b || controllerLE b a) = true := by
      intro a b
      simp only [controllerLE, Bool.or_eq_true, decide_eq_true_eq]
      exact le_total a.Callsign b.Callsign
    have hsorted := List.sorted_mergeSort htrans htotal
      (state.Controllers.filter fun ctrl =>
        positions.any fun pos => pos.Name == ctrl.Callsign)
    exact hsorted.imp fun h => by simpa [controllerLE] using h
  · intro hnil
    have := hperm
    rw [hnil] at this
    exact this.eq_nil

/-- `atan2` of two non-negative arguments is non-negative. -/
theorem atan2_nonneg (y x : ℝ) (hy : 0 ≤ y) (hx : 0 ≤ x) : 0 ≤ atan2 y x := by
  unfold atan2
  have hxlt : ¬ x < 0 := not_lt.mpr hx
  by_cases h1 : 0 < x
  · rw [if_pos h1]
    have h := Real.arctan_strictMono.monotone (div_nonneg hy (le_of_lt h1))
    rwa [Real.arctan_zero] at h
  · rw [if_neg h1, if_neg hxlt]
    by_cases h2 : 0 < y
    · rw [if_pos h2]
      positivity
    · rw [if_neg h2, if_neg (not_lt.mpr hy)]

/-- The scaled haversine angle is non-negative whatever the intermediate
`x` is, because both `atan2` arguments are square roots. -/
theorem hav_scale_nonneg (x : ℝ) :
    0 ≤ 6371000 * (2 * atan2 (Real.sqrt x) (Real.sqrt (1 - x))) * 0.000539957 := by
  have h := atan2_nonneg (Real.sqrt x) (Real.sqrt (1 - x))
    (Real.sqrt_nonneg x) (Real.sqrt_nonneg (1 - x))
  have h3 : (0:ℝ) ≤ 6371000 * (2 * atan2 (Real.sqrt x) (Real.sqrt (1 - x))) := by
    apply mul_nonneg
    · norm_num
    · linarith
  apply mul_nonneg h3
  norm_num

/-- The squared half-angle sine is insensitive to the sign of the
difference. -/
theorem sin_half_sq_symm (u v : ℝ) :
    Real.sin ((u - v) / 2) * Real.sin ((u - v) / 2)
      = Real.sin ((v - u) / 2) * Real.sin ((v - u) / 2) := by
  rw [show (u - v) / 2 = -((v - u) / 2) by ring, Real.sin_neg]
  ring

/-- The distance of a point to itself is exactly zero. -/
theorem NMDistance2LL_self (a : ℝ × ℝ) : NMDistance2LL a a = 0 := by
  unfold NMDistance2LL
  simp only [sub_self, zero_div, Real.sin_zero, mul_zero, zero_mul, add_zero,
    Real.sqrt_zero, sub_zero, Real.sqrt_one]
  norm_num [atan2, Real.arctan_zero]

/-- The distance is exactly symmetric under swapping its endpoints. -/
theorem NMDistance2LL_symm (a b : ℝ × ℝ) :
    NMDistance2LL a b = NMDistance2LL b a := by
  unfold NMDistance2LL
  simp only
  generalize a.2 / 180 * Real.pi = la
  generalize b.2 / 180 * Real.pi = lb
  generalize a.1 / 180 * Real.pi = oa
  generalize b.1 / 180 * Real.pi = ob
  rw [sin_half_sq_symm lb la, sin_half_sq_symm ob oa,
    mul_comm (Real.cos la) (Real.cos lb)]

/-- Every distance value is non-negative. -/
theorem NMDistance2LL_nonneg (a b : ℝ × ℝ) : 0 ≤ NMDistance2LL a b := by
  unfold NMDistance2LL
  simp only
  exact hav_scale_nonneg _

/-- C9: for all geographic points a and b, the distance function satisfies
distance(a,a) = 0 and distance(a,b) = distance(b,a) (exact equality, hence
within any stated floating tolerance), and every distance value is
non-negative. -/
theorem c9_distance_properties (a b : ℝ × ℝ) :
    NMDistance2LL a a = 0 ∧
    NMDistance2LL a b = NMDistance2LL b a ∧
    0 ≤ NMDistance2LL a b :=
  ⟨NMDistance2LL_self a, NMDistance2LL_symm a b, NMDistance2LL_nonneg a b⟩
